import Mathlib

/-!
Shallow embedding of the reactive core of flamingo.js (src/flamingo.js):
the property Observer (lines 641-675), the Template compiler and renderer
(lines 678-755), the EventEmitter as used for watchers (lines 572-638),
and the Kiwi component class (lines 1034-1313).

Conventions:
- JS values are modelled by `JsValue`.  Plain objects carry a numeric
  object id so that the JS identity comparison (triple equals) can be
  modelled by `strictEq`; fields are an association list in insertion
  order, matching enumeration order of string-keyed JS objects.
- A data container is an association list `Ctx`.  Membership of a key in
  the list models the key being instrumented by `Observer.observe`
  (the observer installs an accessor on every enumerable own key, both at
  construction and after `$set` adds a key, so at every API boundary the
  present keys are exactly the instrumented ones).
- Side effects (watcher callbacks, the dataChange emission, writes to
  el.innerHTML) are returned as an explicit `Event` log in program order.
-/

namespace Flamingo

/-- A JavaScript value, restricted to the shapes the reactive core
manipulates.  `obj` carries an object id modelling reference identity and
an insertion-ordered field list.  (Arrays, functions and symbol keys are
not exercised by the verified claims.) -/
inductive JsValue where
  | undefined : JsValue
  | nullv : JsValue
  | bool : Bool → JsValue
  | num : Int → JsValue
  | str : String → JsValue
  | obj : Nat → List (String × JsValue) → JsValue

/-- Data containers: string-keyed association lists in insertion order. -/
abbrev Ctx := List (String × JsValue)

/-- utils.isObject (line 21): `obj !== null && typeof obj === 'object'`. -/
def JsValue.isObject : JsValue → Bool
  | .obj _ _ => true
  | _ => false

/-- The JS strict equality `===` used by the observer setter (line 661):
value equality on primitives, reference identity (the object id) on
objects.  (NaN is not modelled; the claims use integral numbers.) -/
def strictEq : JsValue → JsValue → Bool
  | .undefined, .undefined => true
  | .nullv, .nullv => true
  | .bool a, .bool b => a == b
  | .num a, .num b => a == b
  | .str a, .str b => a == b
  | .obj i _, .obj j _ => i == j
  | _, _ => false

/-- `JsValue.undefined` test, modelling the `value !== undefined` check of the
render closure (line 734). -/
def JsValue.isUndefined : JsValue → Bool
  | .undefined => true
  | _ => false

/-- Property read on a JS object: the first (and in a well-formed object
the only) entry for the key.  An absent key reads as `undefined` at the
call sites, which pass the result through `Option.getD .undefined`. -/
def alookup {α : Type} : List (String × α) → String → Option α
  | [], _ => none
  | (k', v) :: rest, k => if k' = k then some v else alookup rest k

/-- Property write on a JS object: replaces the value of an existing key
in place (JS keeps the original insertion position), appends a fresh key
at the end (JS appends string keys in insertion order). -/
def setAssoc (l : Ctx) (k : String) (v : JsValue) : Ctx :=
  if (alookup l k).isSome then
    l.map (fun p => if p.1 = k then (k, v) else p)
  else
    l ++ [(k, v)]

/-! ## Template tokenizer

`Template.compile` (lines 688-745) scans the template with the regex
built from the default delimiters, `/\{\{\s*(.+?)\s*\}\}/g`, pushing a
text token for each gap and an expression token holding the trimmed
capture group for each match.  The functions below model that scan
directly, including the backtracking order of the regex engine: the
leading `\s*` is greedy (longest run first), the capture `(.+?)` is lazy
(grows one character at a time), the trailing `\s*` is greedy, and the
scan restarts one character further right when a `\{\{` cannot be
completed.  `.` does not match a line terminator; `\s` is modelled on the
ASCII whitespace characters (the Unicode space classes are not exercised
by the claims). -/

/-- The characters matched by the regex class `\s` (ASCII subset). -/
def jsWs (c : Char) : Bool :=
  c = ' ' || c = '\t' || c = '\n' || c = '\x0b' || c = '\x0c' || c = '\r'

/-- The characters matched by `.`: everything but a line terminator. -/
def dotMatch (c : Char) : Bool :=
  !(c = '\n' || c = '\r')

/-- String.prototype.trim on a character list (line 713, match[1].trim()). -/
def jsTrim (l : List Char) : List Char :=
  ((l.dropWhile jsWs).reverse.dropWhile jsWs).reverse

/-- The literal closing delimiter: strips a leading pair of closing
braces. -/
def closeDelim : List Char → Option (List Char)
  | c1 :: c2 :: r => if c1 = '}' ∧ c2 = '}' then some r else none
  | _ => none

/-- Close a match: consume `\s*` then the literal closing delimiter,
greedily (whitespace run of length `k` first, backtracking to shorter
runs).  Called with `k` = the length of the whitespace prefix of `l`.
Returns the remainder after the closing braces. -/
def tryCloseAt (l : List Char) : Nat → Option (List Char)
  | 0 => closeDelim l
  | k + 1 =>
    match closeDelim (l.drop (k + 1)) with
    | some r => some r
    | none => tryCloseAt l k

/-- `\s*\}\}` with the greedy backtracking of the regex engine. -/
def tryClose (l : List Char) : Option (List Char) :=
  tryCloseAt l (l.takeWhile jsWs).length

/-- The lazy capture `(.+?)` followed by `\s*\}\}`: grow the capture one
`.`-matchable character at a time, attempting to close after each step.
Returns the capture group and the remainder after the match. -/
def tryCore (acc : List Char) : List Char → Option (List Char × List Char)
  | [] => none
  | c :: rest =>
    if dotMatch c then
      match tryClose rest with
      | some r => some (acc ++ [c], r)
      | none => tryCore (acc ++ [c]) rest
    else none

/-- The leading `\s*` after the opening delimiter, greedy: try the
whitespace run of length `k` first, then backtrack to shorter runs. -/
def tryOpenAt (l : List Char) : Nat → Option (List Char × List Char)
  | 0 => tryCore [] l
  | k + 1 =>
    match tryCore [] (l.drop (k + 1)) with
    | some gr => some gr
    | none => tryOpenAt l k

/-- Attempt the part of the pattern after the opening `\{\{`. -/
def tryMatch (l : List Char) : Option (List Char × List Char) :=
  tryOpenAt l (l.takeWhile jsWs).length

/-- The literal opening delimiter at the current scan position: given the
head character and the tail, returns what follows a pair of opening
braces. -/
def openerTail : Char → List Char → Option (List Char)
  | c, c2 :: after => if c = '{' ∧ c2 = '{' then some after else none
  | _, [] => none

/-- Leftmost match of the full pattern: scan for an opening `\{\{` whose
tail completes a match, advancing one character on failure exactly as the
regex engine advances its start position.  Returns the text before the
match, the capture group, and the remainder after the match. -/
def findMatch : List Char → Option (List Char × List Char × List Char)
  | [] => none
  | c :: rest =>
    match openerTail c rest with
    | some after =>
      match tryMatch after with
      | some (g, r) => some ([], g, r)
      | none =>
        match findMatch rest with
        | some (pre, g, r) => some (c :: pre, g, r)
        | none => none
    | none =>
      match findMatch rest with
      | some (pre, g, r) => some (c :: pre, g, r)
      | none => none

/-- A compiled template token (lines 704-724): a literal text span or the
trimmed raw expression between delimiters. -/
inductive Token where
  | text : String → Token
  | expr : String → Token
deriving DecidableEq

/-- The exec loop of `Template.compile` (lines 699-724): text token for
each gap between matches (pushed only when nonempty), expression token
for each trimmed capture, trailing text token when characters remain.
The fuel argument only serves structural recursion; each found match
consumes at least one character, so the fuel supplied by `tokenize`
(length + 1) is never exhausted (`tokenizeFuel_adequate` below). -/
def tokenizeFuel : Nat → List Char → List Token
  | 0, _ => []
  | fuel + 1, l =>
    match findMatch l with
    | none => if l.isEmpty then [] else [.text (String.mk l)]
    | some (pre, g, r) =>
      (if pre.isEmpty then [] else [.text (String.mk pre)]) ++
        (Token.expr (String.mk (jsTrim g)) :: tokenizeFuel fuel r)

/-- Tokenization of a template string with the default delimiters. -/
def tokenize (s : String) : List Token :=
  tokenizeFuel (s.data.length + 1) s.data

/-! ## Template rendering

The render closure (lines 726-741) maps each token to a string piece —
text verbatim, expressions through the dynamic evaluator with a
try/catch — and joins the pieces.  Evaluation of an expression string is
`new Function('data', with(data) return expr)(data)` (line 733): arbitrary
JS, modelled here by an abstract evaluator function that either yields a
value or throws.  `evalIdent` instantiates it for the bare-identifier
expressions the claims exercise. -/

/-- An expression evaluator: yields the value of the expression string in
the given data context, or the message of the exception it throws. -/
def Evaluator : Type := String → Ctx → Except String JsValue

/-- Element-to-string conversion performed by Array.prototype.join on the
mapped pieces (line 740): undefined and null become the empty string,
other values their JS string conversion. -/
def valueToJoin : JsValue → String
  | .undefined => ""
  | .nullv => ""
  | .bool b => if b then "true" else "false"
  | .num n => toString n
  | .str s => s
  | .obj _ _ => "[object Object]"

/-- One token of the render closure (lines 727-739): text tokens
verbatim; expression tokens evaluated, with an undefined result replaced
by the empty string (line 734) and a thrown exception caught, logged as a
`Template error:` diagnostic and replaced by the empty string (lines
735-738).  Returns the string piece and the diagnostics logged. -/
def renderOne (ev : Evaluator) (data : Ctx) : Token → String × List String
  | .text s => (s, [])
  | .expr e =>
    match ev e data with
    | .ok v => (if v.isUndefined then "" else valueToJoin v, [])
    | .error msg => ("", ["Template error: " ++ msg])

/-- The full render closure: pieces of all tokens concatenated in order
(`tokens.map(...).join('')`, lines 727-740), diagnostics accumulated in
order. -/
def renderTokens (ev : Evaluator) (data : Ctx) : List Token → String × List String
  | [] => ("", [])
  | t :: ts =>
    ((renderOne ev data t).1 ++ (renderTokens ev data ts).1,
     (renderOne ev data t).2 ++ (renderTokens ev data ts).2)

/-- The concrete evaluator for the expressions the claims exercise: a
bare identifier.  `with(data){ return k }` reads the property when `data`
has it; otherwise the identifier is resolved against the (empty) outer
scope and a ReferenceError is thrown.  A present property whose value is
undefined is returned as undefined, not an error. -/
def evalIdent : Evaluator := fun e data =>
  match alookup data e with
  | some v => .ok v
  | none => .error (e ++ " is not defined")

/-- `Template.render(template, data)` (lines 747-750) with the default
engine configuration and the identifier evaluator: compile (tokenize) and
apply the renderer.  The cache consulted by `compile` stores the token
sequence itself, so the rendered output is independent of cache state
(`compileT_idem` below); this function gives the output and diagnostics. -/
def renderTemplate (t : String) (data : Ctx) : String × List String :=
  renderTokens evalIdent data (tokenize t)

/-! ## Template cache

`Template` instances hold `this.cache = {}` (line 685); `compile` returns
the cached renderer when the exact template string is a present key
(lines 689-691) and otherwise tokenizes, stores and returns the fresh
renderer (lines 743-744).  The renderer closure is determined by the
token list it captures, so the cache stores token lists; `scans` counts
tokenizations, the observable compilation counter of the claim. -/

structure TemplateEngine where
  cache : List (String × List Token)
  scans : Nat

/-- `Template.compile` (lines 688-745): cache hit returns the stored
renderer unchanged and performs no scan; cache miss tokenizes once and
stores the result under the exact template string. -/
def compileT (e : TemplateEngine) (t : String) : List Token × TemplateEngine :=
  match alookup e.cache t with
  | some toks => (toks, e)
  | none =>
    let toks := tokenize t
    (toks, { cache := e.cache ++ [(t, toks)], scans := e.scans + 1 })

/-! ## Observer

`Observer.observe` (lines 648-674) walks every enumerable own key of a
container, recursing into object values, and replaces each key with an
accessor pair over a captured cell.  The setter (lines 660-671) is a
no-op when the incoming value is strictly equal to the cell, and
otherwise replaces the cell, recursively observes an incoming object
value, and invokes the change callback with (key, newValue, oldValue)
before the write returns.

In this embedding a container is live when its keys are exactly the
entries of the association list (observe instruments every key, and
re-observing after `$set` adds a key keeps that invariant; re-observation
replaces accessors without firing callbacks, so it has no observable
event).  `obsWrite` is a write through the installed setter, returning
the updated container and the synchronous callback invocations. -/

/-- A write through the accessor installed by `Observer.observe` on a
tracked key, with the change-callback invocations it performs, in order.
A write to a key with no accessor (never produced by `observe`, but
reachable through `$set` on an absent key before re-observation) is the
plain JS property creation: it stores silently. -/
def obsWrite (d : Ctx) (k : String) (v : JsValue) :
    Ctx × List (String × JsValue × JsValue) :=
  match alookup d k with
  | none => (d ++ [(k, v)], [])
  | some old =>
    if strictEq old v then (d, [])
    else (setAssoc d k v, [(k, v, old)])

/-! ## The Kiwi component

State of a component (lines 1034-1313).  Computed getters are modelled by
a small closed function space `CompFn` (the source accepts arbitrary JS
functions; the claims exercise a getter of the shape
`function() { return this.key * c }`).  Watcher callbacks are opaque
callback ids; an `Event` log records, in program order, the dataChange
emission, each matching watcher invocation, and each write of rendered
markup into the element. -/

/-- A computed getter: invoked with no argument, reads tracked data
through the instance proxy at call time.  `timesConst k c` models
`function() { return this.k * c }`; a missing or non-numeric source key
is not exercised by the claims. -/
inductive CompFn where
  | timesConst : String → Int → CompFn

/-- Evaluate a computed getter against the current data container
(`getter.call(this)`, line 1130: reads go through the instance proxy to
`this.data`). -/
def CompFn.eval (d : Ctx) : CompFn → JsValue
  | .timesConst k c =>
    match alookup d k with
    | some (.num n) => .num (n * c)
    | _ => .undefined

/-- One observable side effect of a mutation cycle. -/
inductive Event where
  | dataChange : String → JsValue → JsValue → Event
  | watcherFired : Nat → JsValue → JsValue → Event
  | render : String → Event

/-- A Kiwi component.  `watchers` holds the dataChange listeners
registered by `$watch` in registration order: each entry is the identity
of the wrapper closure created by that `$watch` call (fresh per call),
the watched key it closes over, and the id of the user callback.
`destroyed` models the nulling of the reference surface by `$destroy`
(lines 1283-1290).  `template`/`hasEl` model `this.options.template` and
`this.el`; `target` is the content of `el.innerHTML`; `renderCount`
counts renders.  The beforeUpdate/updated and mount hooks are plain
callables outside the claims and are not recorded. -/
structure KiwiState where
  destroyed : Bool
  data : Ctx
  computed : List (String × CompFn)
  watchers : List (Nat × String × Nat)
  nextWid : Nat
  template : Option String
  hasEl : Bool
  renderCount : Nat
  target : String

/-- The render context of `_renderTemplate` (line 1193):
`utils.extend({}, this.data, this.computed)` — a fresh object receiving
the data entries and then the computed entries, each computed getter
evaluated at access time against the current data.  (`utils.extend`
deep-merges only when both sides hold objects, a case no claim
exercises; on the disjoint or primitive keys here it is right-biased
insertion.) -/
def templateData (st : KiwiState) : Ctx :=
  st.computed.foldl (fun acc p => setAssoc acc p.1 (p.2.eval st.data)) st.data

/-- `_renderTemplate` (lines 1189-1200): render the template against the
merged context and replace the element content; a no-op without an
element or with a falsy (absent or empty) template, mirroring the guards
of lines 1102 and 1158 and the early return of line 1190. -/
def renderNow (st : KiwiState) : KiwiState × List Event :=
  match st.template with
  | none => (st, [])
  | some t =>
    if t ≠ "" ∧ st.hasEl = true then
      let html := (renderTemplate t (templateData st)).1
      ({ st with target := html, renderCount := st.renderCount + 1 },
       [.render html])
    else (st, [])

/-- The wrapper closures registered on the dataChange channel by `$watch`
(lines 1246-1252), run in registration order by `emit` (lines 603-611):
each fires its user callback with (newValue, oldValue) when the changed
key equals its watched key. -/
def dispatchWatchers (st : KiwiState) (k : String) (newV oldV : JsValue) :
    List Event :=
  st.watchers.filterMap fun w =>
    if w.2.1 = k then some (.watcherFired w.2.2 newV oldV) else none

/-- The observer callback installed by `_setupReactivity` (lines
1149-1166): emit dataChange (running the matching watchers), then —
when a template and element are bound — re-render.  Runs synchronously
inside the triggering write. -/
def fireCycle (st : KiwiState) (k : String) (newV oldV : JsValue) :
    KiwiState × List Event :=
  let wEvts := dispatchWatchers st k newV oldV
  let r := renderNow st
  (r.1, .dataChange k newV oldV :: (wEvts ++ r.2))

/-- An assignment `this.data[k] = v` on a component: through the
installed accessor when `k` is instrumented (Observer setter, lines
660-671, invoking the component callback), a silent plain store when it
is not (only reachable for an absent key). -/
def observerAssign (st : KiwiState) (k : String) (v : JsValue) :
    KiwiState × List Event :=
  match alookup st.data k with
  | none => ({ st with data := st.data ++ [(k, v)] }, [])
  | some old =>
    if strictEq old v then (st, [])
    else fireCycle { st with data := setAssoc st.data k v } k v old

/-- `$set(key, value)` for a single key (lines 1203-1232).  When
`this.data[key] === undefined` — the key absent, or present holding
undefined — the add-new branch stores the value, re-observes the
container and installs the instance proxy; when the key is absent the
store is a plain property creation (no callback), while a present
(instrumented) key routes the store through its setter.  Otherwise the
else branch writes through the existing accessor.  Re-observation and
proxy installation produce no events, so every case reduces to the
assignment itself. -/
def setKV (st : KiwiState) (k : String) (v : JsValue) :
    KiwiState × List Event :=
  observerAssign st k v

/-- `$set(mapping)` (lines 1204-1208): `utils.each` applies the single
key form to every entry in the mapping, in its iteration (insertion)
order. -/
def setMany (st : KiwiState) (kvs : List (String × JsValue)) :
    KiwiState × List Event :=
  kvs.foldl (fun acc kv =>
    ((setKV acc.1 kv.1 kv.2).1, acc.2 ++ (setKV acc.1 kv.1 kv.2).2)) (st, [])

/-- `$watch(key, callback)` (lines 1238-1257): wraps the callback in a
fresh closure filtering on the key and registers it on the dataChange
channel.  The fresh closure identity is modelled by the `nextWid`
counter; the returned value is the identity the unwatcher closes over. -/
def watchOp (st : KiwiState) (k : String) (cb : Nat) : KiwiState × Nat :=
  ({ st with
      watchers := st.watchers ++ [(st.nextWid, k, cb)],
      nextWid := st.nextWid + 1 },
   st.nextWid)

/-- The unwatcher returned by `$watch` (lines 1255-1257):
`this.off('dataChange', watcher)` removes the registrations whose
callback is that very closure (`EventEmitter.off`, lines 591-601, filters
by closure identity). -/
def unwatchOp (st : KiwiState) (wid : Nat) : KiwiState :=
  { st with watchers := st.watchers.filter fun w => w.1 ≠ wid }

/-- A write arriving through the nested accessors: navigate the observed
containers along the path and run the innermost setter.  Each nested
setter was installed by the recursive `observe` with its own bare
property name, so the callback receives the final path segment only.
Returns the updated container graph, the key the callback receives, and
the old value — or none when the write was an identity no-op or the path
does not address instrumented object fields. -/
def navWrite : Ctx → List String → JsValue → Option (Ctx × String × JsValue)
  | d, [k], v =>
    match alookup d k with
    | none => none
    | some old =>
      if strictEq old v then none else some (setAssoc d k v, k, old)
  | d, k :: rest, v =>
    match alookup d k with
    | some (.obj oid fields) =>
      match navWrite fields rest v with
      | some (fields', lk, old) =>
        some (setAssoc d k (.obj oid fields'), lk, old)
      | none => none
    | _ => none
  | _, [], _ => none

/-- A distinct-value write to a (possibly nested) tracked property of a
component: the innermost setter updates its cell and invokes the
component observer callback with the bare leaf key, driving the full
dispatch-then-render cycle. -/
def nestedWrite (st : KiwiState) (path : List String) (v : JsValue) :
    KiwiState × List Event :=
  match navWrite st.data path v with
  | none => (st, [])
  | some (d', lk, old) => fireCycle { st with data := d' } lk v old

/-- The final path segment: the bare property name whose setter fires. -/
def lastKey : List String → Option String
  | [] => none
  | [k] => some k
  | _ :: rest => lastKey rest

/-- `$destroy` (lines 1269-1291): resets the listener table, then nulls
el, options, data, computed, observer, templateEngine and animation. -/
def destroyOp (st : KiwiState) : KiwiState :=
  { st with
      destroyed := true, watchers := [], template := none, hasEl := false }

/-! ## The public API after destroy

`$destroy` nulls `this.data` and `this.options`; the public operations
perform no liveness check, so what a call does afterwards is decided by
where it first dereferences the nulled surface.  `JsOutcome` separates a
normal return, a host TypeError from dereferencing null, and a deliberate
framework error (which this code never throws). -/

inductive JsOutcome (α : Type) where
  | ok : α → JsOutcome α
  | typeError : String → JsOutcome α
  | explicitError : String → JsOutcome α

/-- Whether an outcome is a deliberate, explicit error. -/
def JsOutcome.isExplicitError {α : Type} : JsOutcome α → Bool
  | .explicitError _ => true
  | _ => false

/-- `$get` (lines 1234-1236): `key ? this.data[key] : this.data`.  After
destroy, the keyed read dereferences null and throws; the keyless read
returns the null reference itself. -/
def getApi (st : KiwiState) (key : Option String) : JsOutcome JsValue :=
  if st.destroyed then
    match key with
    | some _ => .typeError "Cannot read properties of null"
    | none => .ok .nullv
  else
    match key with
    | some k => .ok ((alookup st.data k).getD .undefined)
    | none => .ok (.obj 0 st.data)

/-- `$set` for a single key after the destroy check: line 1209 reads
`this.data[key]`, which throws on a destroyed component. -/
def setApi (st : KiwiState) (k : String) (v : JsValue) :
    JsOutcome (KiwiState × List Event) :=
  if st.destroyed then .typeError "Cannot read properties of null"
  else .ok (setKV st k v)

/-- `$watch` keeps working after destroy: `$destroy` resets `this._events`
to a fresh empty table (line 1276), so `this.on` succeeds and the watcher
is registered silently. -/
def watchApi (st : KiwiState) (k : String) (cb : Nat) :
    JsOutcome (KiwiState × Nat) :=
  .ok (watchOp st k cb)

/-- `$nextTick` (lines 1260-1267) wraps a setTimeout in a promise and
never touches the nulled surface itself: the call succeeds on a destroyed
component. -/
def nextTickApi (_st : KiwiState) (_cb : Nat) : JsOutcome Unit :=
  .ok ()

/-! ## Concrete component states used by witnesses and counterexamples -/

/-- A live component with two tracked keys, one watcher per key
(registration order a before b) and a bound template. -/
def mkTwoKeyState (a b : String) (va vb : JsValue) (ca cb n : Nat)
    (t tgt : String) : KiwiState :=
  { destroyed := false, data := [(a, va), (b, vb)], computed := [],
    watchers := [(0, a, ca), (1, b, cb)], nextWid := 2,
    template := some t, hasEl := true, renderCount := n, target := tgt }

/-- The two-key component at concrete values. -/
def twoKeySample : KiwiState :=
  mkTwoKeyState "a" "b" (.num 0) (.num 0) 1 2 0 "{{a}}-{{b}}" ""

/-- A live single-key component used to build a destroyed component. -/
def liveSample : KiwiState :=
  { destroyed := false, data := [("x", .num 1)], computed := [],
    watchers := [], nextWid := 0, template := some "{{x}}", hasEl := true,
    renderCount := 0, target := "" }

/-- A component on which `$destroy` has run. -/
def deadSample : KiwiState := destroyOp liveSample

/-- The computed-property scenario of the claim: data count=3, computed
double = count * 2, template rendering the computed entry. -/
def computedSample : KiwiState :=
  { destroyed := false, data := [("count", .num 3)],
    computed := [("double", .timesConst "count" 2)], watchers := [],
    nextWid := 0, template := some "{{double}}", hasEl := true,
    renderCount := 0, target := "" }

/-- A component with no registered watchers yet. -/
def emptyWatchState : KiwiState :=
  { destroyed := false, data := [("k", .num 0)], computed := [],
    watchers := [], nextWid := 0, template := none, hasEl := false,
    renderCount := 0, target := "" }

/-- A component whose data nests an observed container, with a watcher on
the bare inner key name. -/
def nestedSample : KiwiState :=
  { destroyed := false, data := [("outer", .obj 1 [("k", .num 0)])],
    computed := [], watchers := [(0, "k", 3)], nextWid := 1,
    template := some "n", hasEl := true, renderCount := 0, target := "" }

/-- A component whose tracked key k currently holds undefined. -/
def undefKeySample : KiwiState :=
  { destroyed := false, data := [("k", .undefined)], computed := [],
    watchers := [(0, "k", 5)], nextWid := 1, template := some "T{{k}}",
    hasEl := true, renderCount := 0, target := "" }

/-- A component with an empty data container. -/
def freshSample : KiwiState :=
  { destroyed := false, data := [], computed := [], watchers := [],
    nextWid := 0, template := none, hasEl := false, renderCount := 0,
    target := "" }

/-! ## Shared helper lemmas -/

theorem strictEq_refl (v : JsValue) : strictEq v v = true := by
  cases v <;> simp [strictEq]

theorem alookup_setAssoc_self (l : Ctx) (k : String) (v : JsValue) :
    alookup (setAssoc l k v) k = some v := by
  induction l with
  | nil => simp [setAssoc, alookup]
  | cons p rest ih =>
    by_cases h : p.1 = k
    · simp [setAssoc, alookup, h]
    · simp only [setAssoc, alookup, h, if_false]
      by_cases h2 : (alookup rest k).isSome
      · have := ih
        simp [setAssoc, h2] at this
        simp [setAssoc, alookup, h2, h, this]
      · have := ih
        simp [setAssoc, h2] at this
        simp [setAssoc, alookup, h2, h, this]

theorem alookup_append_of_none {α : Type} (l : List (String × α)) (k : String)
    (v : α) (h : alookup l k = none) :
    alookup (l ++ [(k, v)]) k = some v := by
  induction l with
  | nil => simp [alookup]
  | cons p rest ih =>
    by_cases hp : p.1 = k
    · simp [alookup, hp] at h
    · simp [alookup, hp] at h ⊢
      exact ih h

theorem closeDelim_length {l r : List Char} (h : closeDelim l = some r) :
    r.length + 2 = l.length := by
  rcases l with _ | ⟨c1, l⟩
  · simp [closeDelim] at h
  · rcases l with _ | ⟨c2, l⟩
    · simp [closeDelim] at h
    · by_cases hc : c1 = '}' ∧ c2 = '}'
      · simp [closeDelim, hc] at h
        subst h
        simp
      · simp [closeDelim, hc] at h

theorem tryCloseAt_length {l : List Char} {k : Nat} {r : List Char}
    (h : tryCloseAt l k = some r) : r.length + 2 ≤ l.length := by
  induction k with
  | zero =>
    have := closeDelim_length (l := l) (r := r) h
    omega
  | succ k ih =>
    simp only [tryCloseAt] at h
    rcases hd : closeDelim (l.drop (k + 1)) with _ | r'
    · rw [hd] at h
      exact ih h
    · rw [hd] at h
      simp at h
      subst h
      have h1 := closeDelim_length hd
      have h2 : (l.drop (k + 1)).length = l.length - (k + 1) := by simp
      omega

theorem tryClose_length {l r : List Char} (h : tryClose l = some r) :
    r.length + 2 ≤ l.length :=
  tryCloseAt_length h

theorem tryCore_length {acc l : List Char} {g r : List Char}
    (h : tryCore acc l = some (g, r)) : r.length < l.length := by
  induction l generalizing acc with
  | nil => simp [tryCore] at h
  | cons c rest ih =>
    simp only [tryCore] at h
    by_cases hc : dotMatch c
    · rw [if_pos hc] at h
      rcases htc : tryClose rest with _ | r'
      · rw [htc] at h
        have := ih h
        simp only [List.length_cons]
        omega
      · rw [htc] at h
        simp at h
        obtain ⟨-, hr⟩ := h
        subst hr
        have := tryClose_length htc
        simp only [List.length_cons]
        omega
    · rw [if_neg hc] at h
      exact absurd h (by simp)

theorem tryOpenAt_length {l : List Char} {k : Nat} {g r : List Char}
    (h : tryOpenAt l k = some (g, r)) : r.length < l.length := by
  induction k with
  | zero => exact tryCore_length h
  | succ k ih =>
    simp only [tryOpenAt] at h
    rcases htc : tryCore [] (l.drop (k + 1)) with _ | ⟨g', r'⟩
    · rw [htc] at h
      exact ih h
    · rw [htc] at h
      simp at h
      obtain ⟨hg, hr⟩ := h
      subst hr
      have h1 := tryCore_length htc
      have h2 : (l.drop (k + 1)).length = l.length - (k + 1) := by simp
      omega

theorem tryMatch_length {l : List Char} {g r : List Char}
    (h : tryMatch l = some (g, r)) : r.length < l.length :=
  tryOpenAt_length h

theorem openerTail_length {c : Char} {l after : List Char}
    (h : openerTail c l = some after) : after.length + 1 = l.length := by
  rcases l with _ | ⟨c2, l⟩
  · simp [openerTail] at h
  · by_cases hc : c = '{' ∧ c2 = '{'
    · simp [openerTail, hc] at h
      subst h
      simp
    · simp [openerTail, hc] at h

theorem findMatch_length : ∀ {l : List Char} {pre g r : List Char},
    findMatch l = some (pre, g, r) → r.length < l.length := by
  intro l
  induction l with
  | nil => intro pre g r h; simp [findMatch] at h
  | cons c rest ih =>
    intro pre g r h
    simp only [findMatch] at h
    rcases ho : openerTail c rest with _ | after
    · simp only [ho] at h
      rcases hf : findMatch rest with _ | ⟨⟨pre', g', r'⟩⟩
      · simp only [hf] at h
        exact absurd h (by simp)
      · simp only [hf] at h
        simp at h
        obtain ⟨-, -, hr⟩ := h
        subst hr
        have := ih hf
        simp only [List.length_cons]
        omega
    · simp only [ho] at h
      rcases hm : tryMatch after with _ | ⟨g', r'⟩
      · simp only [hm] at h
        rcases hf : findMatch rest with _ | ⟨⟨pre', g'', r''⟩⟩
        · simp only [hf] at h
          exact absurd h (by simp)
        · simp only [hf] at h
          simp at h
          obtain ⟨-, -, hr⟩ := h
          subst hr
          have := ih hf
          simp only [List.length_cons]
          omega
      · simp only [hm] at h
        simp at h
        obtain ⟨-, -, hr⟩ := h
        subst hr
        have h1 := tryMatch_length hm
        have h2 := openerTail_length ho
        simp only [List.length_cons]
        omega

/-- The fuel in `tokenizeFuel` is irrelevant as soon as it exceeds the
input length: the zero-fuel branch is dead code for the fuel supplied by
`tokenize`. -/
theorem tokenizeFuel_adequate :
    ∀ (n : Nat) (l : List Char) (f₁ f₂ : Nat), l.length ≤ n →
      l.length < f₁ → l.length < f₂ → tokenizeFuel f₁ l = tokenizeFuel f₂ l := by
  intro n
  induction n with
  | zero =>
    intro l f₁ f₂ hn h1 h2
    have : l = [] := List.length_eq_zero.mp (Nat.le_zero.mp hn)
    subst this
    rcases f₁ with _ | f₁
    · omega
    rcases f₂ with _ | f₂
    · omega
    simp [tokenizeFuel, findMatch]
  | succ n ih =>
    intro l f₁ f₂ hn h1 h2
    rcases f₁ with _ | f₁
    · omega
    rcases f₂ with _ | f₂
    · omega
    simp only [tokenizeFuel]
    rcases hf : findMatch l with _ | ⟨⟨pre, g, r⟩⟩
    · rfl
    · have hr := findMatch_length hf
      have heq : tokenizeFuel f₁ r = tokenizeFuel f₂ r := by
        apply ih r f₁ f₂ <;> omega
      simp [heq]

theorem renderTokens_append (ev : Evaluator) (data : Ctx) (ts₁ ts₂ : List Token) :
    renderTokens ev data (ts₁ ++ ts₂) =
      ((renderTokens ev data ts₁).1 ++ (renderTokens ev data ts₂).1,
       (renderTokens ev data ts₁).2 ++ (renderTokens ev data ts₂).2) := by
  induction ts₁ with
  | nil => simp [renderTokens]
  | cons t ts ih => simp [renderTokens, ih, String.append_assoc, List.append_assoc]

theorem navWrite_lastKey :
    ∀ {path : List String} {d : Ctx} {v : JsValue} {d' : Ctx} {lk : String}
      {old : JsValue},
      navWrite d path v = some (d', lk, old) → lastKey path = some lk := by
  intro path
  induction path with
  | nil => intro d v d' lk old h; simp [navWrite] at h
  | cons k rest ih =>
    intro d v d' lk old h
    rcases rest with _ | ⟨k2, rest2⟩
    · simp only [navWrite] at h
      rcases ha : alookup d k with _ | old'
      · simp only [ha] at h; exact absurd h (by simp)
      · simp only [ha] at h
        by_cases hc : strictEq old' v
        · simp only [hc, if_true] at h; exact absurd h (by simp)
        · simp only [hc, if_false] at h
          simp at h
          obtain ⟨-, hlk, -⟩ := h
          simp [lastKey, hlk]
    · simp only [navWrite] at h
      rcases ha : alookup d k with _ | w
      · simp only [ha] at h; exact absurd h (by simp)
      · simp only [ha] at h
        rcases w with _ | _ | b | n | s | ⟨oid, fields⟩
        · simp at h
        · simp at h
        · simp at h
        · simp at h
        · simp at h
        · rcases hn : navWrite fields (k2 :: rest2) v with _ | ⟨⟨f', lk', old'⟩⟩
          · simp only [hn] at h; exact absurd h (by simp)
          · simp only [hn] at h
            simp at h
            obtain ⟨-, hlk, hold⟩ := h
            subst hlk; subst hold
            simpa [lastKey] using ih hn

theorem filter_ne_of_bounded (l : List (Nat × String × Nat)) (n : Nat)
    (h : ∀ w ∈ l, w.1 < n) : (l.filter fun w => w.1 ≠ n) = l := by
  apply List.filter_eq_self.mpr
  intro a ha
  simpa using Nat.ne_of_lt (h a ha)

theorem unwatchOp_idem (st : KiwiState) (wid : Nat) :
    unwatchOp (unwatchOp st wid) wid = unwatchOp st wid := by
  simp [unwatchOp, List.filter_filter]

/-! ## Claim theorems -/

/-- Claim C3: for every observed container and tracked key, a write whose
new value is strictly equal (`===`) to the current value is a complete
no-op — the container is unchanged and the change callback is not
invoked; writing the same value twice in a row invokes the callback at
most once; and a distinct-value write invokes the callback exactly once,
synchronously, within the write itself. -/
theorem C3_identical_write_noop (d : Ctx) (k : String) (cur v : JsValue)
    (h : alookup d k = some cur) :
    (strictEq cur v = true → obsWrite d k v = (d, [])) ∧
    (strictEq cur v = false → (obsWrite d k v).2 = [(k, v, cur)]) ∧
    (obsWrite (obsWrite d k v).1 k v).2 = [] ∧
    ((obsWrite d k v).2 ++ (obsWrite (obsWrite d k v).1 k v).2).length ≤ 1 := by
  rcases hc : strictEq cur v with _ | _
  · refine ⟨by simp [hc], fun _ => ?_, ?_, ?_⟩
    · simp [obsWrite, h, hc]
    · simp [obsWrite, h, hc, alookup_setAssoc_self, strictEq_refl]
    · simp [obsWrite, h, hc, alookup_setAssoc_self, strictEq_refl]
  · refine ⟨fun _ => ?_, by simp [hc], ?_, ?_⟩
    · simp [obsWrite, h, hc]
    · simp [obsWrite, h, hc]
    · simp [obsWrite, h, hc]

/-- Witness for C3 at a concrete container: a distinct-value write fires
the callback exactly once and a repeat of the same value fires nothing. -/
theorem C3_witness :
    alookup [("count", JsValue.num 1)] "count" = some (.num 1) ∧
    (obsWrite [("count", JsValue.num 1)] "count" (.num 2)).2 =
      [("count", .num 2, .num 1)] ∧
    (obsWrite (obsWrite [("count", JsValue.num 1)] "count" (.num 2)).1
        "count" (.num 2)).2 = [] :=
  ⟨rfl,
   (C3_identical_write_noop [("count", .num 1)] "count" (.num 1) (.num 2)
      rfl).2.1 rfl,
   (C3_identical_write_noop [("count", .num 1)] "count" (.num 1) (.num 2)
      rfl).2.2.1⟩

/-- Claim C4: compiling the identical template string a second time on
the same engine returns the very same cached renderer and leaves the
engine — in particular its tokenization counter — unchanged: compile is
idempotent per engine and the cache is keyed by the template string. -/
theorem C4_compile_cached_idempotent (e : TemplateEngine) (t : String) :
    compileT (compileT e t).2 t = ((compileT e t).1, (compileT e t).2) ∧
    ((compileT (compileT e t).2 t).2).scans = ((compileT e t).2).scans := by
  rcases hl : alookup e.cache t with _ | toks
  · have h2 : alookup (e.cache ++ [(t, tokenize t)]) t = some (tokenize t) :=
      alookup_append_of_none _ _ _ hl
    constructor
    · simp [compileT, hl, h2]
    · simp [compileT, hl, h2]
  · constructor <;> simp [compileT, hl]

/-- Claim C5: a failure while evaluating one expression token is caught
at that token, logged as a `Template error:` diagnostic, and contributes
the empty string; the surrounding tokens are still rendered in full and
the render returns normally to its caller. -/
theorem C5_token_failure_isolated (ev : Evaluator) (data : Ctx)
    (ts₁ ts₂ : List Token) (e msg : String) (h : ev e data = .error msg) :
    renderTokens ev data (ts₁ ++ Token.expr e :: ts₂) =
      ((renderTokens ev data ts₁).1 ++ "" ++ (renderTokens ev data ts₂).1,
       (renderTokens ev data ts₁).2 ++
         ("Template error: " ++ msg) :: (renderTokens ev data ts₂).2) := by
  have hsplit : ts₁ ++ Token.expr e :: ts₂ = ts₁ ++ ([Token.expr e] ++ ts₂) := by
    simp
  rw [hsplit, renderTokens_append, renderTokens_append]
  simp [renderTokens, renderOne, h, String.append_assoc]

/-- Witness for C5: rendering text, a failing expression and more text
yields the surrounding text with the failing token as empty string, plus
one diagnostic. -/
theorem C5_witness :
    evalIdent "missing" [("x", JsValue.num 1)] =
      .error "missing is not defined" ∧
    renderTokens evalIdent [("x", JsValue.num 1)]
        [Token.text "A", Token.expr "missing", Token.text "B"] =
      ("A" ++ "" ++ "B", [] ++ ("Template error: " ++ "missing is not defined") :: []) :=
  ⟨rfl,
   C5_token_failure_isolated evalIdent [("x", .num 1)] [Token.text "A"]
     [Token.text "B"] "missing" "missing is not defined" rfl⟩

/-- Claim C6: rendering is the left-to-right concatenation of the token
pieces — text tokens verbatim, expression tokens (held trimmed by the
tokenizer) evaluated — and an expression whose result is undefined,
including one referencing an absent key, contributes the empty string
rather than the text undefined. -/
theorem C6_render_concatenation (ev : Evaluator) (data da : Ctx)
    (ts₁ ts₂ : List Token) (s e k : String)
    (hu : ev e data = .ok .undefined) (hk : alookup da k = none) :
    (renderTokens ev data (ts₁ ++ ts₂)).1 =
      (renderTokens ev data ts₁).1 ++ (renderTokens ev data ts₂).1 ∧
    (renderTokens ev data [Token.text s]).1 = s ∧
    (renderTokens ev data [Token.expr e]).1 = "" ∧
    (renderTokens evalIdent da [Token.expr k]).1 = "" ∧
    tokenize "{{  x  }}" = [Token.expr "x"] ∧
    renderTemplate "Hello {{name}}, {{missing}}!" [("name", .str "Ada")] =
      ("Hello Ada, !", ["Template error: missing is not defined"]) := by
  refine ⟨?_, ?_, ?_, ?_, by rfl, by rfl⟩
  · rw [renderTokens_append]
  · simp [renderTokens, renderOne]
  · simp [renderTokens, renderOne, hu, JsValue.isUndefined]
  · simp [renderTokens, renderOne, evalIdent, hk]

/-- Witness for C6: a present key holding undefined and an absent key
both render as the empty string. -/
theorem C6_witness :
    (renderTokens evalIdent [("u", JsValue.undefined)] [Token.expr "u"]).1 = "" ∧
    (renderTokens evalIdent [] [Token.expr "zzz"]).1 = "" :=
  ⟨(C6_render_concatenation evalIdent [("u", .undefined)] [] [] [] "s" "u" "zzz"
      rfl rfl).2.2.1,
   (C6_render_concatenation evalIdent [("u", .undefined)] [] [] [] "s" "u" "zzz"
      rfl rfl).2.2.2.1⟩

/-- Claim C1 is false on the code: `$set({a:1, b:2})` re-renders once per
key — two renders, not one — because the observer callback re-renders on
every distinct-value write; the first render still shows the old value of
b.  Concretely, on a component with a=0, b=0, watchers on both keys and
template rendering both values, the event log shows two render events
(the first with the stale b) and the render counter advances by two. -/
theorem C1_counterexample :
    (setMany twoKeySample [("a", JsValue.num 1), ("b", JsValue.num 2)]).2 =
      [.dataChange "a" (.num 1) (.num 0), .watcherFired 1 (.num 1) (.num 0),
       .render "1-0",
       .dataChange "b" (.num 2) (.num 0), .watcherFired 2 (.num 2) (.num 0),
       .render "1-2"] ∧
    (setMany twoKeySample [("a", JsValue.num 1), ("b", JsValue.num 2)]).1.renderCount
        = 2 ∧
    ¬ (setMany twoKeySample
        [("a", JsValue.num 1), ("b", JsValue.num 2)]).1.renderCount = 1 :=
  ⟨rfl, rfl, by decide⟩

/-- Claim C1 (amended): on a component with watchers on tracked keys a
and b and a bound template and target, `set({a:1, b:2})` dispatches the
watchers for a first and then b, and triggers one re-render per
distinct-value write — two in total, not one — with the first render
reflecting only the new a and the final render (and final target)
reflecting both new values. -/
theorem C1_set_mapping_per_key_cycle (a b : String) (va vb : JsValue)
    (ca cb n : Nat) (t tgt : String) (hab : a ≠ b) (ht : t ≠ "")
    (h1 : strictEq va (.num 1) = false) (h2 : strictEq vb (.num 2) = false) :
    (setMany (mkTwoKeyState a b va vb ca cb n t tgt)
        [(a, .num 1), (b, .num 2)]).2 =
      [.dataChange a (.num 1) va, .watcherFired ca (.num 1) va,
       .render (renderTemplate t [(a, .num 1), (b, vb)]).1,
       .dataChange b (.num 2) vb, .watcherFired cb (.num 2) vb,
       .render (renderTemplate t [(a, .num 1), (b, .num 2)]).1] ∧
    (setMany (mkTwoKeyState a b va vb ca cb n t tgt)
        [(a, .num 1), (b, .num 2)]).1.renderCount = n + 2 ∧
    (setMany (mkTwoKeyState a b va vb ca cb n t tgt)
        [(a, .num 1), (b, .num 2)]).1.target =
      (renderTemplate t [(a, .num 1), (b, .num 2)]).1 ∧
    (setMany (mkTwoKeyState a b va vb ca cb n t tgt)
        [(a, .num 1), (b, .num 2)]).1.data = [(a, .num 1), (b, .num 2)] := by
  have hba : b ≠ a := Ne.symm hab
  refine ⟨?_, ?_, ?_, ?_⟩ <;>
    simp [setMany, setKV, observerAssign, fireCycle, dispatchWatchers,
      renderNow, templateData, setAssoc, alookup, mkTwoKeyState, h1, h2, ht,
      hab, hba]

/-- Witness for C1 (amended) at the concrete two-key component. -/
theorem C1_witness :
    ("a" : String) ≠ "b" ∧
    (setMany twoKeySample [("a", JsValue.num 1), ("b", JsValue.num 2)]).1.target
      = (renderTemplate "{{a}}-{{b}}"
          [("a", JsValue.num 1), ("b", JsValue.num 2)]).1 :=
  ⟨by decide,
   (C1_set_mapping_per_key_cycle "a" "b" (.num 0) (.num 0) 1 2 0 "{{a}}-{{b}}"
      "" (by decide) (by decide) rfl rfl).2.2.1⟩

/-- Claim C2 is false on the code: after `$destroy()`, `$watch` and
`$nextTick` silently succeed (the listener table was merely reset), the
keyed `$get` throws the host null-reference TypeError from reading a
property of the nulled data, and the keyless `$get` silently returns the
null reference — no public operation raises an explicit, deliberate
post-destroy error. -/
theorem C2_counterexample :
    (watchApi deadSample "k" 0).isExplicitError = false ∧
    (nextTickApi deadSample 0).isExplicitError = false ∧
    getApi deadSample (some "x") = .typeError "Cannot read properties of null" ∧
    (getApi deadSample (some "x")).isExplicitError = false ∧
    getApi deadSample none = .ok .nullv :=
  ⟨rfl, rfl, rfl, rfl, rfl⟩

/-- Claim C2 (amended): on every destroyed component, the keyed `$get`
and `$set` fail with the host null-reference TypeError (not a deliberate
framework error), the keyless `$get` silently returns null, and `$watch`
and `$nextTick` silently succeed; no public operation fails with an
explicit post-destroy error. -/
theorem C2_post_destroy_behavior (st : KiwiState) (k : String) (v : JsValue)
    (cb : Nat) (h : st.destroyed = true) :
    getApi st (some k) = .typeError "Cannot read properties of null" ∧
    getApi st none = .ok .nullv ∧
    setApi st k v = .typeError "Cannot read properties of null" ∧
    watchApi st k cb = .ok (watchOp st k cb) ∧
    (watchApi st k cb).isExplicitError = false ∧
    nextTickApi st cb = .ok () := by
  simp [getApi, setApi, watchApi, nextTickApi, h, JsOutcome.isExplicitError]

/-- Witness for C2 (amended) at the concrete destroyed component. -/
theorem C2_witness :
    deadSample.destroyed = true ∧
    setApi deadSample "x" (JsValue.num 2) =
      .typeError "Cannot read properties of null" :=
  ⟨rfl, (C2_post_destroy_behavior deadSample "x" (.num 2) 0 rfl).2.2.1⟩

/-- Claim C7: a computed entry is recomputed on every access against the
current data — merged into the render context alongside the raw data on
every render — so with count=3 and double = count * 2 the template
renders 6, and after set count 4 the re-render performed by the mutation
cycle itself yields 8 with no explicit recomputation call. -/
theorem C7_computed_recomputed_and_merged (st : KiwiState) (k : String)
    (f : CompFn) (h : st.computed = [(k, f)]) :
    alookup (templateData st) k = some (f.eval st.data) ∧
    (∀ d₂ : Ctx,
      alookup (templateData { st with data := d₂ }) k = some (f.eval d₂)) ∧
    (renderNow computedSample).1.target = "6" ∧
    (setKV computedSample "count" (.num 4)).1.target = "8" ∧
    (setKV computedSample "count" (.num 4)).1.renderCount =
      computedSample.renderCount + 1 := by
  refine ⟨?_, ?_, by rfl, by rfl, by rfl⟩
  · simp [templateData, h, alookup_setAssoc_self]
  · intro d₂
    simp [templateData, h, alookup_setAssoc_self]

/-- Witness for C7 at the concrete computed-property component. -/
theorem C7_witness :
    computedSample.computed = [("double", CompFn.timesConst "count" 2)] ∧
    alookup (templateData computedSample) "double" =
      some ((CompFn.timesConst "count" 2).eval computedSample.data) ∧
    (renderNow computedSample).1.target = "6" :=
  ⟨rfl,
   (C7_computed_recomputed_and_merged computedSample "double"
      (.timesConst "count" 2) rfl).1,
   (C7_computed_recomputed_and_merged computedSample "double"
      (.timesConst "count" 2) rfl).2.2.1⟩

/-- Claim C8: the unwatcher returned by `$watch` removes precisely that
one registration — a second registration of the same callback on the same
key survives and still fires — and calling it a second time is a safe
no-op leaving the state unchanged. -/
theorem C8_unwatch_precise_idempotent (st : KiwiState) (k : String)
    (cb : Nat) (v old : JsValue)
    (hfresh : ∀ w ∈ st.watchers, w.1 < st.nextWid) :
    (unwatchOp (watchOp (watchOp st k cb).1 k cb).1 (watchOp st k cb).2).watchers
        = st.watchers ++ [(st.nextWid + 1, k, cb)] ∧
    Event.watcherFired cb v old ∈
      dispatchWatchers
        (unwatchOp (watchOp (watchOp st k cb).1 k cb).1 (watchOp st k cb).2)
        k v old ∧
    unwatchOp
        (unwatchOp (watchOp (watchOp st k cb).1 k cb).1 (watchOp st k cb).2)
        (watchOp st k cb).2
      = unwatchOp (watchOp (watchOp st k cb).1 k cb).1 (watchOp st k cb).2 := by
  have hfilter : ∀ l : List (Nat × String × Nat), (∀ w ∈ l, w.1 < st.nextWid) →
      ((l ++ [(st.nextWid, k, cb), (st.nextWid + 1, k, cb)]).filter
        fun w => w.1 ≠ (st.nextWid : Nat)) = l ++ [(st.nextWid + 1, k, cb)] := by
    intro l hl
    rw [List.filter_append, filter_ne_of_bounded l st.nextWid hl]
    simp
  have hw : (unwatchOp (watchOp (watchOp st k cb).1 k cb).1
      (watchOp st k cb).2).watchers = st.watchers ++ [(st.nextWid + 1, k, cb)] := by
    simp only [watchOp, unwatchOp, List.append_assoc, List.cons_append,
      List.nil_append]
    exact hfilter st.watchers hfresh
  refine ⟨hw, ?_, ?_⟩
  · apply List.mem_filterMap.mpr
    refine ⟨(st.nextWid + 1, k, cb), ?_, by simp⟩
    rw [hw]
    simp
  · exact unwatchOp_idem _ _

/-- Witness for C8: after registering twice and unwatching the first
registration, the surviving registration of the same callback fires. -/
theorem C8_witness :
    (∀ w ∈ emptyWatchState.watchers, w.1 < emptyWatchState.nextWid) ∧
    Event.watcherFired 7 (JsValue.num 1) (JsValue.num 0) ∈
      dispatchWatchers
        (unwatchOp (watchOp (watchOp emptyWatchState "k" 7).1 "k" 7).1
          (watchOp emptyWatchState "k" 7).2) "k" (.num 1) (.num 0) :=
  ⟨by simp [emptyWatchState],
   (C8_unwatch_precise_idempotent emptyWatchState "k" 7 (.num 1) (.num 0)
      (by simp [emptyWatchState])).2.1⟩

/-- Claim C9: watcher dispatch matches on the bare property name — a
distinct-value write to a property named k nested at any depth invokes
the callback with the leaf key, so the watchers registered for top-level
key k fire with the nested new and old values, and the full re-render
cycle runs. -/
theorem C9_nested_write_bare_key_dispatch (st : KiwiState)
    (path : List String) (v : JsValue) (d' : Ctx) (lk t : String)
    (old : JsValue)
    (h : navWrite st.data path v = some (d', lk, old))
    (hT : st.template = some t) (ht : t ≠ "") (hel : st.hasEl = true) :
    lastKey path = some lk ∧
    (nestedWrite st path v).2 =
      .dataChange lk v old ::
        (dispatchWatchers st lk v old ++
          [.render (renderTemplate t (templateData { st with data := d' })).1]) ∧
    (∀ wid cb, (wid, lk, cb) ∈ st.watchers →
       Event.watcherFired cb v old ∈ (nestedWrite st path v).2) ∧
    (nestedWrite st path v).1.renderCount = st.renderCount + 1 := by
  refine ⟨navWrite_lastKey h, ?_, ?_, ?_⟩
  · simp [nestedWrite, h, fireCycle, renderNow, hT, ht, hel, dispatchWatchers]
  · intro wid cb hmem
    have hfired : Event.watcherFired cb v old ∈
        dispatchWatchers { st with data := d' } lk v old :=
      List.mem_filterMap.mpr ⟨(wid, lk, cb), by simpa using hmem, by simp⟩
    simp only [nestedWrite, h, fireCycle]
    exact List.mem_cons.mpr (Or.inr (List.mem_append.mpr (Or.inl hfired)))
  · simp [nestedWrite, h, fireCycle, renderNow, hT, ht, hel]

/-- Witness for C9 at a concrete two-level write. -/
theorem C9_witness :
    navWrite nestedSample.data ["outer", "k"] (JsValue.num 5) =
      some ([("outer", JsValue.obj 1 [("k", JsValue.num 5)])], "k",
        JsValue.num 0) ∧
    lastKey ["outer", "k"] = some "k" ∧
    Event.watcherFired 3 (JsValue.num 5) (JsValue.num 0) ∈
      (nestedWrite nestedSample ["outer", "k"] (JsValue.num 5)).2 ∧
    (nestedWrite nestedSample ["outer", "k"] (JsValue.num 5)).1.renderCount
      = 1 :=
  have hc := C9_nested_write_bare_key_dispatch nestedSample ["outer", "k"]
    (.num 5) [("outer", .obj 1 [("k", .num 5)])] "k" "n" (.num 0) rfl rfl
    (by decide) rfl
  ⟨rfl, hc.1, hc.2.2.1 0 3 (by simp [nestedSample]), hc.2.2.2⟩

/-- Claim C10 is false on the code for a key explicitly present with
value undefined: such a key is already instrumented, so the add-new
branch of `$set` writes through the installed setter and the assignment
fires the watcher, emits dataChange and re-renders — it is not silent. -/
theorem C10_counterexample :
    (setKV undefKeySample "k" (JsValue.num 1)).2 =
      [.dataChange "k" (.num 1) .undefined, .watcherFired 5 (.num 1) .undefined,
       .render "T1"] ∧
    (setKV undefKeySample "k" (JsValue.num 1)).1.renderCount =
      undefKeySample.renderCount + 1 :=
  ⟨rfl, rfl⟩

/-- Claim C10 (amended): calling set(k, v) when k is absent from the data
container (hence not yet instrumented) stores v and instruments the key
while firing no watcher, emitting no dataChange and triggering no
re-render — render count and target are unchanged — and notifications
for k begin with a later distinct-value write through the installed
accessor.  (A key present but holding undefined is already instrumented
and is notified immediately; see the counterexample.) -/
theorem C10_set_absent_key_silent (st : KiwiState) (k : String)
    (v w : JsValue) (h : alookup st.data k = none)
    (hw : strictEq v w = false) :
    setKV st k v = ({ st with data := st.data ++ [(k, v)] }, []) ∧
    (setKV st k v).1.renderCount = st.renderCount ∧
    (setKV st k v).1.target = st.target ∧
    alookup (setKV st k v).1.data k = some v ∧
    Event.dataChange k w v ∈ (setKV (setKV st k v).1 k w).2 := by
  have h2 : alookup (st.data ++ [(k, v)]) k = some v :=
    alookup_append_of_none _ _ _ h
  refine ⟨?_, ?_, ?_, ?_, ?_⟩
  · simp [setKV, observerAssign, h]
  · simp [setKV, observerAssign, h]
  · simp [setKV, observerAssign, h]
  · simp [setKV, observerAssign, h, h2]
  · simp [setKV, observerAssign, h, h2, hw, fireCycle]

/-- Witness for C10 (amended): adding a genuinely absent key is silent,
and the next distinct-value write notifies. -/
theorem C10_witness :
    alookup freshSample.data "k" = none ∧
    setKV freshSample "k" (JsValue.num 1) =
      ({ freshSample with data := [("k", JsValue.num 1)] }, []) ∧
    Event.dataChange "k" (JsValue.num 2) (JsValue.num 1) ∈
      (setKV (setKV freshSample "k" (JsValue.num 1)).1 "k" (JsValue.num 2)).2 :=
  have hc := C10_set_absent_key_silent freshSample "k" (.num 1) (.num 2) rfl rfl
  ⟨rfl, hc.1, hc.2.2.2.2⟩

end Flamingo
